import Mathlib

/-!
Verification development for the rihlat transit-assistant repository.

The Python sources (src/agents.py, src/tools.py, src/rihlat.py) are shallowly
embedded below.  External effects are made explicit parameters:

* the SQLite engine behind a connection is a function from a SQL string to
  either a row set or a driver error message (`DBConn.exec`);
* the process-wide secret store (`st.secrets`) is an association list;
* one outbound HTTP call is represented by the `HttpResponse` the network
  returns for the request the code constructs, and every tool model also
  reports whether the call was reached (`Bool` component of its result);
* the language model is an oracle from the built prompt to either a text
  completion or a raised client error;
* the wall clock is an explicit `DateTime` argument.

A Python expression that can raise is modelled in `Option`/`Except`; a
`try/except` block is the corresponding `match` on that value.
-/

/-- JSON values, as produced by `response.json()` in the Python sources. -/
inductive Json where
  | null : Json
  | jbool : Bool → Json
  | jnum : Int → Json
  | jstr : String → Json
  | jarr : List Json → Json
  | jobj : List (String × Json) → Json
deriving Repr

/-- First-match lookup in a string-keyed association list, the model of
Python dict access via `.get` (returns `none` instead of raising). -/
def lookupStr : List (String × String) → String → Option String
  | [], _ => none
  | (k, v) :: rest, key => if k = key then some v else lookupStr rest key

/-- First-match lookup among JSON object fields. -/
def lookupField : List (String × Json) → String → Option Json
  | [], _ => none
  | (k, v) :: rest, key => if k = key then some v else lookupField rest key

/-- Python `obj[k]` on a JSON value: raises `KeyError` when the key is
absent and `TypeError` when the value is not a dict.  The raised message is
carried in the `Except` error. -/
def Json.getKey : Json → String → Except String Json
  | .jobj fs, k =>
    match lookupField fs k with
    | some v => .ok v
    | none => .error ("KeyError: " ++ k)
  | _, k => .error ("TypeError: value is not subscriptable by key " ++ k)

/-- Python `obj[i]` on a JSON value: raises `IndexError` out of range and
`TypeError` when the value is not a list. -/
def Json.getIdx : Json → Nat → Except String Json
  | .jarr xs, i =>
    match xs.get? i with
    | some v => .ok v
    | none => .error "IndexError: list index out of range"
  | _, _ => .error "TypeError: value is not subscriptable by index"

/-- Truthiness of an optional string, the model of Python `if not api_key`:
`None` and the empty string are falsy. -/
def truthyStr : Option String → Bool
  | none => false
  | some s => !(s = "")

/-- Python `a or b` on optional strings (used for `key or st.secrets.get(..)`):
a present non-empty string wins, otherwise the second operand. -/
def pyOrStr (a b : Option String) : Option String :=
  match a with
  | some s => if s = "" then b else some s
  | none => b

/-- One HTTP exchange: the status and body text of the response the network
returned for the request the tool constructed, plus the result of
`response.json()` (`none` when the body is not valid JSON, in which case
`.json()` raises). -/
structure HttpResponse where
  status : Nat
  text : String
  json : Option Json

/-- One database row as returned by the sqlite driver. -/
abbrev Row := List Json

/-- One table of the schema catalog: its name and its ordered
(column name, declared type) pairs, as `PRAGMA table_info` reports them. -/
structure Table where
  name : String
  cols : List (String × String)
deriving Repr, DecidableEq

/-- A SQLite connection: the catalog scan result and the engine, which maps a
SQL string to either the full fetched row set or a `sqlite3.Error` message. -/
structure DBConn where
  tables : List Table
  exec : String → Except String (List Row)

/-- Result of `GTFSQueryAgent.run_query`: either the raw fetched row list, or the
`{"errors": "SQLite error: ..."}` payload built from the driver message. -/
inductive QueryResult where
  | rows : List Row → QueryResult
  | dbError : String → QueryResult

/-- Model of `GTFSQueryAgent.run_query` (src/agents.py:93-105): execute the query,
return all fetched rows; a `sqlite3.Error` is caught and converted into the
`{"errors": "SQLite error: " ++ str(e)}` payload. -/
def GTFSQueryAgent.runQuery (db : DBConn) (query : String) : QueryResult :=
  match db.exec query with
  | .ok results => .rows results
  | .error e => .dbError ("SQLite error: " ++ e)

/-- Model of `GTFSQueryAgent.get_table_info` (src/agents.py:86-91): the per-table
column listing. -/
def GTFSQueryAgent.getTableInfo (t : Table) : String :=
  String.intercalate "\n" (t.cols.map (fun c => "Column: " ++ c.1 ++ ", Type: " ++ c.2))

/-- The schema text `_initialize` computes (src/agents.py:66-75): one block
per catalog table, joined by blank lines. -/
def GTFSQueryAgent.renderTableInfo (tables : List Table) : String :=
  String.intercalate "\n\n"
    (tables.map (fun t =>
      "Database: merged_gtfs.db\nTable: " ++ t.name ++ "\n" ++ GTFSQueryAgent.getTableInfo t))

/-- The mutable fields of a `GTFSQueryAgent` instance that `_initialize`
touches, together with the construction-time inputs (`db_path` is abstracted
by the catalog its scan yields). -/
structure AgentState where
  dbTables : List Table
  topK : Nat
  cachedTableInfo : Option String
  isInit : Bool

/-- Model of the private initialisation step of `GTFSQueryAgent` (src/agents.py:24-78): on first call, scan
the catalog, render and cache the schema text and set the flag; afterwards a
no-op. -/
def GTFSQueryAgent.ensureInit (s : AgentState) : AgentState :=
  if s.isInit then s
  else { s with cachedTableInfo := some (GTFSQueryAgent.renderTableInfo s.dbTables), isInit := true }

/-- The `table_info` property (src/agents.py:80-84): run `_initialize`, then
read the cached field.  Returns the read value and the updated instance. -/
def GTFSQueryAgent.tableInfoRead (s : AgentState) : Option String × AgentState :=
  let s2 := GTFSQueryAgent.ensureInit s
  (s2.cachedTableInfo, s2)

/-- Python `str.strip()`: drop whitespace from both ends. -/
def pyStrip (s : String) : String :=
  String.mk (((s.data.dropWhile Char.isWhitespace).reverse.dropWhile Char.isWhitespace).reverse)

/-- The system message of the prompt, i.e. the `_sys_msg` template of
src/agents.py:30-52 with `{top_k}`, `{table_info}` and `{input}`
substituted (the `dialect` binding passed at invoke time is unused by the
template). -/
def GTFSQueryAgent.sysMsgText (top_k : Nat) (table_info input : String) : String :=
  "\n                You are a SQL generation assistant. Your task is to generate SQL queries to answer user questions.\n                Follow these instructions:\n\n                1. Identify the most relevant tables in the database schema based on the user\x27s question. Use only the tables provided in the schema.\n                2. Generate a valid SQL query using the `sqlite` dialect.\n                3. Do not include any Markdown formatting such as triple backticks (` ``` `) or tags like `sql` in the output.\n                4. Ensure the SQL query is syntactically correct and limited to "
    ++ toString top_k
    ++ " results unless otherwise specified by the user.\n                5. Only return the SQL query.\n                \n                Additional Information:\n                - Common Transit Names (E101, MGrn, etc.) can be found in the routes table -> route_short_name column\n                - Common Stop Names (Dubai Mall, MS, Dubai Studio City, etc.) can be found in the routes table -> route_long_name column\n\n                Refrain from adding any additional information.\n                Use the following database schema information for `merged_gtfs.db`:\n                "
    ++ table_info
    ++ "\n\n                Question:\n                "
    ++ input
    ++ "\n                "

/-- The human message of the prompt, i.e. the `_hum_msg` template of
src/agents.py:54-56 with `{table_info}` and `{input}` substituted. -/
def GTFSQueryAgent.humMsgText (table_info input : String) : String :=
  "Database Schema:\n" ++ table_info ++ "\n\nQuestion: " ++ input

/-- The two-message chat prompt. -/
structure Prompt where
  system : String
  human : String
deriving Repr, DecidableEq

/-- The Prompt Builder: `ChatPromptTemplate.from_messages([sys, hum])`
invoked with the bindings of src/agents.py:117-125. -/
def GTFSQueryAgent.buildPrompt (top_k : Nat) (table_info input : String) : Prompt :=
  { system := GTFSQueryAgent.sysMsgText top_k table_info input
  , human := GTFSQueryAgent.humMsgText table_info input }

/-- The return value of `GTFSQueryAgent.write_query`: the
`{"query": ..., "results": ..., "errors": ...}` dictionary. -/
structure WriteQueryOutput where
  query : Option String
  results : Option QueryResult
  errors : Option String

/-- The language-model endpoint: maps the built prompt to either the text
completion of `self._model.invoke(prompt).content` or the message of the
exception the client raised. -/
abbrev LlmOracle := Prompt → Except String String

/-- Model of `GTFSQueryAgent.write_query` (src/agents.py:107-142): ensure
initialisation, build the prompt, invoke the model once, strip the
completion, execute it via `run_query`, and return the result dictionary;
an exception raised inside the `try` block is caught and reported in the
`errors` field with `query` and `results` null.  The third component counts
how many times the language model was invoked. -/
def GTFSQueryAgent.writeQuery (s : AgentState) (db : DBConn) (llm : LlmOracle)
    (question : String) : WriteQueryOutput × AgentState × Nat :=
  let s2 := GTFSQueryAgent.ensureInit s
  let tinfo := s2.cachedTableInfo.getD ""
  let prompt := GTFSQueryAgent.buildPrompt s2.topK tinfo question
  match llm prompt with
  | .error e => ({ query := none, results := none, errors := some e }, s2, 1)
  | .ok response =>
    let query := pyStrip response
    let results := GTFSQueryAgent.runQuery db query
    ({ query := some query, results := some results, errors := none }, s2, 1)

/-- Outcome of `GeocodingTool._run` (src/tools.py:73-117): either the
`{"error": ...}` payload or the JSON body of the provider returned verbatim. -/
inductive GeoOutcome where
  | err : String → GeoOutcome
  | ok : Json → GeoOutcome

/-- Model of the synchronous run of `GeocodingTool` (src/tools.py:73-117).  `net` is the response the
network returns for the request URL and parameters the tool constructs; the
`Bool` component records whether the outbound call was reached.  The
optional query parameters are only forwarded into the request, so they do
not influence the outcome beyond selecting `net`. -/
def GeocodingTool.run (secrets : List (String × String)) (net : HttpResponse)
    (query : String) (lat lon radius limit countrySet language : Option String)
    (ext : String) : GeoOutcome × Bool :=
  let api_key := lookupStr secrets "TOMTOM_API_KEY"
  if truthyStr api_key = false then
    (.err "API key is missing from secrets.toml", false)
  else
    let outcome :=
      if net.status ≠ 200 then
        GeoOutcome.err ("API call failed with status code " ++ toString net.status ++ ": " ++ net.text)
      else
        match net.json with
        | none => GeoOutcome.err "JSONDecodeError: invalid response body"
        | some body => GeoOutcome.ok body
    (outcome, true)

/-- Model of the asynchronous run of `GeocodingTool` (src/tools.py:119-134):
delegation to the synchronous run inside a `try`
with an exception handler that is unreachable because `_run` already catches
everything. -/
def GeocodingTool.arun (secrets : List (String × String)) (net : HttpResponse)
    (query : String) (lat lon radius limit countrySet language : Option String)
    (ext : String) : GeoOutcome × Bool :=
  GeocodingTool.run secrets net query lat lon radius limit countrySet language ext

/-- The `results` dictionary built by the routing code, and also (with every
field null and no instructions) the payload its catch-all handler in
`RoutesAgent.fetch_response` returns. -/
structure RouteRecord where
  start_coords : Option Json
  end_coords : Option Json
  travelDistance : Option Json
  travelDuration : Option Json
  instructions : List Json

/-- Outcome of the routing code: either the `{"error": ...}` payload or a
`results` record. -/
inductive RoutingOutcome where
  | err : String → RoutingOutcome
  | record : RouteRecord → RoutingOutcome

/-- Navigation `resourceSets 0, resources 0` with Python exception
semantics. -/
def resources0 (body : Json) : Except String Json := do
  let rs ← body.getKey "resourceSets"
  let rs0 ← rs.getIdx 0
  let res ← rs0.getKey "resources"
  res.getIdx 0

/-- Navigation `resourceSets 0, resources 0, routeLegs 0` with
Python exception semantics. -/
def routeLeg0 (body : Json) : Except String Json := do
  let r0 ← resources0 body
  let legs ← r0.getKey "routeLegs"
  legs.getIdx 0

/-- Python iteration over a JSON value: only lists are iterable. -/
def Json.asList : Json → Except String (List Json)
  | .jarr xs => .ok xs
  | _ => .error "TypeError: value is not iterable"

/-- The body shared by `TransitRoutingTool._run` (src/tools.py:221-232) and
`RoutesAgent.fetch_response` (src/agents.py:229-240) after a 200 response:
extract the itinerary items, the instruction of each, the start and
end coordinates of the leg and the distance and duration of the resource; any missing field
raises, surfaced here as `Except.error`. -/
def extractRouteRecord (body : Json) : Except String RouteRecord := do
  let leg ← routeLeg0 body
  let itemsJ ← leg.getKey "itineraryItems"
  let items ← itemsJ.asList
  let instructions ← items.mapM (fun item => do
    let ins ← item.getKey "instruction"
    ins.getKey "text")
  let startC ← (← routeLeg0 body).getKey "actualStart"
  let endC ← (← routeLeg0 body).getKey "actualEnd"
  let dist ← (← resources0 body).getKey "travelDistance"
  let dur ← (← resources0 body).getKey "travelDuration"
  pure { start_coords := some startC
       , end_coords := some endC
       , travelDistance := some dist
       , travelDuration := some dur
       , instructions := instructions }

/-- Model of the synchronous run of `TransitRoutingTool` (src/tools.py:183-237).  The catch-all
`except Exception` turns any raised extraction failure into the
`{"error": str(e)}` payload. -/
def TransitRoutingTool.run (secrets : List (String × String)) (net : HttpResponse)
    (origin destination : String)
    (optimize avoid distance_unit date_time : Option String)
    (max_solutions : Option Int) (key : Option String) : RoutingOutcome × Bool :=
  let api_key := pyOrStr key (lookupStr secrets "BINGMAPS_KEY")
  if truthyStr api_key = false then
    (.err "API key is missing. Provide it in secrets or as an input parameter.", false)
  else
    let outcome :=
      if net.status ≠ 200 then
        RoutingOutcome.err ("API call failed with status code " ++ toString net.status ++ ": " ++ net.text)
      else
        match net.json with
        | none => RoutingOutcome.err "JSONDecodeError: invalid response body"
        | some body =>
          match extractRouteRecord body with
          | .ok r => RoutingOutcome.record r
          | .error e => RoutingOutcome.err e
    (outcome, true)

/-- Model of the asynchronous run of `TransitRoutingTool`
(src/tools.py:239-254): plain delegation to
the synchronous `_run` with the same arguments. -/
def TransitRoutingTool.arun (secrets : List (String × String)) (net : HttpResponse)
    (origin destination : String)
    (optimize avoid distance_unit date_time : Option String)
    (max_solutions : Option Int) (key : Option String) : RoutingOutcome × Bool :=
  TransitRoutingTool.run secrets net origin destination optimize avoid distance_unit date_time max_solutions key

/-- A wall-clock instant, the value behind `datetime.now()`. -/
structure DateTime where
  year : Nat
  month : Nat
  day : Nat
  hour : Nat
  minute : Nat
  second : Nat
deriving Repr, DecidableEq

/-- Two-digit zero padding, as `strftime` applies to each field. -/
def pad2 (n : Nat) : String :=
  if n < 10 then "0" ++ toString n else toString n

/-- Format `strftime("%Y-%m-%d %H:%M:%S")`. -/
def strftimeYmdHms (t : DateTime) : String :=
  toString t.year ++ "-" ++ pad2 t.month ++ "-" ++ pad2 t.day ++ " "
    ++ pad2 t.hour ++ ":" ++ pad2 t.minute ++ ":" ++ pad2 t.second

/-- Model of the synchronous run of `CurrentDateTime` (src/tools.py:140-150):
format the clock instant;
the handler is unreachable because formatting cannot raise. -/
def CurrentDateTime.run (now : DateTime) (query : Option String) : String :=
  "The current date and time is: " ++ strftimeYmdHms now

/-- Model of the asynchronous run of `CurrentDateTime` (src/tools.py:152-162):
the same body repeated
verbatim rather than delegated. -/
def CurrentDateTime.arun (now : DateTime) (query : Option String) : String :=
  "The current date and time is: " ++ strftimeYmdHms now

/-- The payload the catch-all handler of `RoutesAgent.fetch_response` returns
(src/agents.py:244-251): every coordinate and total null, no instructions,
and no error field. -/
def RoutesAgent.allNullRecord : RouteRecord :=
  { start_coords := none
  , end_coords := none
  , travelDistance := none
  , travelDuration := none
  , instructions := [] }

/-- Model of `RoutesAgent.fetch_response` (src/agents.py:194-251).  `extracted` is
the outcome of `extract_locations` (an LLM call whose output is passed to
`eval`, so it can raise); `st.secrets["BINGMAPS_KEY"]` raises `KeyError`
when the key is absent, and every exception inside the `try` is caught by
the catch-all handler, which returns the all-null record. -/
def RoutesAgent.fetchResponse (secrets : List (String × String))
    (extracted : Except String (List String)) (net : HttpResponse)
    (optimize avoid distance_unit date_time : Option String)
    (max_solutions : Option Int) : RoutingOutcome × Bool :=
  match lookupStr secrets "BINGMAPS_KEY" with
  | none => (.record RoutesAgent.allNullRecord, false)
  | some api_key =>
    if api_key = "" then
      (.err "API key is missing. Provide it in secrets or as an input parameter.", false)
    else
      match extracted with
      | .error _ => (.record RoutesAgent.allNullRecord, false)
      | .ok _ =>
        let outcome :=
          if net.status ≠ 200 then
            RoutingOutcome.err ("API call failed with status code " ++ toString net.status ++ ": " ++ net.text)
          else
            match net.json with
            | none => RoutingOutcome.record RoutesAgent.allNullRecord
            | some body =>
              match extractRouteRecord body with
              | .ok r => RoutingOutcome.record r
              | .error _ => RoutingOutcome.record RoutesAgent.allNullRecord
        (outcome, true)

/-- An error of the multi-database Query Generator, following the taxonomy of the spec: a Parse error for a malformed generated-query string, a
Configuration error for an unknown target database. -/
inductive QueryGenError where
  | parseError : String → QueryGenError
  | configError : String → QueryGenError
deriving Repr, DecidableEq

/-- Modelled from the spec: the split of a generated-query string on its
first vertical-bar separator (the `name|query` format of spec sections 3
and 4.3); the multi-database variant of `GTFSQueryAgent.write_query` is not
part of src/.  Returns `none` when the string has no separator. -/
def splitFirstBar : List Char → Option (List Char × List Char)
  | [] => none
  | c :: cs =>
    if c = '|' then some ([], cs)
    else
      match splitFirstBar cs with
      | none => none
      | some (a, b) => some (c :: a, b)

/-- Modelled from the spec: parse the text output of the LLM as
`<target-database-name>|<SQL text>`, split on the first separator;
absence of the separator is a parse failure. -/
def parseNameQuery (raw : String) : Option (String × String) :=
  match splitFirstBar raw.data with
  | none => none
  | some (a, b) => some (String.mk a, String.mk b)

/-- Modelled from the spec: the multi-database Query Generator step (spec
section 4.3), absent from src/.  `configured` is the configured set of named
database handles.  A string without the separator yields a Parse error; a
parsed name outside the configured set yields a Configuration error; only
otherwise is the query executed on the named handle.  The `Bool` component
records whether execution was attempted. -/
def multiDbGenerate (configured : List (String × DBConn)) (raw : String) :
    Except QueryGenError QueryResult × Bool :=
  match parseNameQuery raw with
  | none =>
    (.error (.parseError "generated query lacks the required separator"), false)
  | some (dbName, sqlText) =>
    match configured.find? (fun p => p.1 = dbName) with
    | none =>
      (.error (.configError ("unknown target database: " ++ dbName)), false)
    | some p => (.ok (GTFSQueryAgent.runQuery p.2 sqlText), true)

/-- The closed set of capabilities the Dispatcher may invoke
(spec section 9 and src/rihlat.py:64-85). -/
inductive ToolName where
  | geocode : ToolName
  | route : ToolName
  | currentTime : ToolName
  | queryTransitData : ToolName
deriving Repr, DecidableEq

/-- One decision of the language model inside the Dispatcher loop: either
pick a tool with extracted arguments, or declare sufficiency and produce
the final answer text. -/
inductive LlmDecision where
  | pickTool : ToolName → List (String × String) → LlmDecision
  | finish : String → LlmDecision

/-- Modelled from the spec: the maximum step count of the tool-selection
loop of the Dispatcher (spec section 4.6 requires a documented bound of
10-15 steps; the loop itself lives in the external agent framework invoked
by `send_to_llm` in src/rihlat.py:48-133 and is not part of src/). -/
def maxIterations : Nat := 15

/-- The answer string the loop yields when the iteration bound is reached
before the model declares sufficiency. -/
def iterationLimitAnswer : String :=
  "Agent stopped due to iteration limit or time limit."

/-- Modelled from the spec: the tool-selection loop of the Dispatcher (spec
section 4.6).  `tools` gives the observation text of each capability for
given arguments; `oracle` is the decision of the model as a function of the context
accumulated so far; `fuel` is the remaining step budget.  Each picked tool
appends its observation to the context; the result is the final answer
string together with the number of tool invocations performed. -/
def dispatchLoop (tools : ToolName → List (String × String) → String)
    (oracle : List String → LlmDecision) :
    Nat → List String → String × Nat
  | 0, _ => (iterationLimitAnswer, 0)
  | Nat.succ fuel, ctx =>
    match oracle ctx with
    | .finish ans => (ans, 0)
    | .pickTool t args =>
      let obs := tools t args
      let rest := dispatchLoop tools oracle fuel (ctx ++ [obs])
      (rest.1, rest.2 + 1)

/-- Modelled from the spec: one full dispatch turn of `send_to_llm`
(src/rihlat.py:48-133): run the tool-selection loop on the question of the user
with the documented step bound. -/
def sendToLlm (tools : ToolName → List (String × String) → String)
    (oracle : List String → LlmDecision) (question : String) : String × Nat :=
  dispatchLoop tools oracle maxIterations [question]

/-- Whether a routing outcome is the `{"error": ...}` payload, i.e. whether
a caller checking the error field of the returned dictionary sees the
failure. -/
def RoutingOutcome.hasErrorField : RoutingOutcome → Bool
  | .err _ => true
  | .record _ => false

/-- The prompt `write_query` hands to the model for a given instance state
and question. -/
def GTFSQueryAgent.agentPrompt (s : AgentState) (question : String) : Prompt :=
  let s2 := GTFSQueryAgent.ensureInit s
  GTFSQueryAgent.buildPrompt s2.topK (s2.cachedTableInfo.getD "") question

/-- Proposition that `t` occurs literally (contiguously) inside `s`. -/
def containsLit (s t : String) : Prop :=
  ∃ a b, s = a ++ t ++ b

/-- A vertical bar absent from a character list means the spec-modelled
split finds no separator. -/
theorem splitFirstBar_eq_none_of_not_mem :
    ∀ l : List Char, '|' ∉ l → splitFirstBar l = none := by
  intro l
  induction l with
  | nil => intro _; rfl
  | cons c cs ih =>
    intro h
    have hc : ¬ c = '|' := fun hc => h (hc ▸ List.mem_cons_self c cs)
    have hcs : '|' ∉ cs := fun hm => h (List.mem_cons_of_mem c hm)
    simp [splitFirstBar, hc, ih hcs]

/-- The tool-invocation count of the dispatch loop never exceeds the fuel. -/
theorem dispatchLoop_steps_le
    (tools : ToolName → List (String × String) → String)
    (oracle : List String → LlmDecision) :
    ∀ fuel ctx, (dispatchLoop tools oracle fuel ctx).2 ≤ fuel := by
  intro fuel
  induction fuel with
  | zero => intro ctx; simp [dispatchLoop]
  | succ n ih =>
    intro ctx
    cases h : oracle ctx with
    | finish ans => simp [dispatchLoop, h]
    | pickTool t args =>
      simp only [dispatchLoop, h]
      exact Nat.add_le_add_right (ih _) 1

/-- C4 (spec-modelled): in multi-database mode, a generated-query string
without the vertical-bar separator yields a Parse error and execution is
never attempted; a parsed database-name prefix outside the configured set
yields a Configuration error, again without execution. -/
theorem C4_multiDb_parse_and_config_errors
    (configured : List (String × DBConn)) (raw : String) :
    ('|' ∉ raw.data →
      multiDbGenerate configured raw =
        (.error (.parseError "generated query lacks the required separator"), false))
    ∧ (∀ dbName sqlText, parseNameQuery raw = some (dbName, sqlText) →
        configured.find? (fun p => p.1 = dbName) = none →
        multiDbGenerate configured raw =
          (.error (.configError ("unknown target database: " ++ dbName)), false)) := by
  constructor
  · intro h
    simp [multiDbGenerate, parseNameQuery, splitFirstBar_eq_none_of_not_mem raw.data h]
  · intro dbName sqlText hparse hfind
    simp [multiDbGenerate, hparse, hfind]

/-- Witness for C4: a plain `SELECT` without a separator is a Parse error,
and a named query whose prefix is not among the configured databases
(here: none are) is a Configuration error; neither executes. -/
theorem C4_multiDb_errors_witness :
    multiDbGenerate [] "SELECT 1" =
      (.error (.parseError "generated query lacks the required separator"), false)
    ∧ multiDbGenerate [] "gtfs|SELECT 1" =
      (.error (.configError ("unknown target database: " ++ "gtfs")), false) :=
  ⟨(C4_multiDb_parse_and_config_errors [] "SELECT 1").1 (by decide),
   (C4_multiDb_parse_and_config_errors [] "gtfs|SELECT 1").2 "gtfs" "SELECT 1" rfl rfl⟩

/-- C5: `run_query` returns either the full row set the engine produced, or
the Database error payload whose message is `"SQLite error: "` followed by
the driver message verbatim. -/
theorem C5_runQuery_rows_or_driver_error (db : DBConn) (q : String) :
    (∃ rs, db.exec q = .ok rs ∧ GTFSQueryAgent.runQuery db q = .rows rs)
    ∨ (∃ e, db.exec q = .error e ∧
        GTFSQueryAgent.runQuery db q = .dbError ("SQLite error: " ++ e)) := by
  cases h : db.exec q with
  | ok rs => exact Or.inl ⟨rs, by simp [h], by simp [GTFSQueryAgent.runQuery, h]⟩
  | error e => exact Or.inr ⟨e, by simp [h], by simp [GTFSQueryAgent.runQuery, h]⟩

/-- C6: reading the schema text twice with no underlying schema change
returns the same string, and `_initialize` is idempotent on the instance
state. -/
theorem C6_tableInfo_deterministic (s : AgentState) :
    (GTFSQueryAgent.tableInfoRead (GTFSQueryAgent.tableInfoRead s).2).1 =
      (GTFSQueryAgent.tableInfoRead s).1
    ∧ GTFSQueryAgent.ensureInit (GTFSQueryAgent.ensureInit s) =
        GTFSQueryAgent.ensureInit s := by
  cases hs : s.isInit <;>
    simp [GTFSQueryAgent.tableInfoRead, GTFSQueryAgent.ensureInit, hs]

/-- C7: for every built prompt, `write_query` invokes the language model
exactly once, and on a completion it returns the completion trimmed only of
surrounding whitespace and hands exactly that string to `run_query` with no
SQL well-formedness validation in between. -/
theorem C7_writeQuery_single_invoke_no_validation
    (s : AgentState) (db : DBConn) (llm : LlmOracle) (question : String) :
    (GTFSQueryAgent.writeQuery s db llm question).2.2 = 1
    ∧ ∀ resp, llm (GTFSQueryAgent.agentPrompt s question) = .ok resp →
        (GTFSQueryAgent.writeQuery s db llm question).1.query = some (pyStrip resp)
        ∧ (GTFSQueryAgent.writeQuery s db llm question).1.results =
            some (GTFSQueryAgent.runQuery db (pyStrip resp)) := by
  constructor
  · cases h : llm (GTFSQueryAgent.agentPrompt s question) <;>
      simp [GTFSQueryAgent.writeQuery, GTFSQueryAgent.agentPrompt] at h ⊢ <;>
      simp [h]
  · intro resp h
    simp [GTFSQueryAgent.agentPrompt] at h
    simp [GTFSQueryAgent.writeQuery, h]

/-- Witness for C7 at a concrete fresh agent, empty engine and a model that
answers with a whitespace-padded query. -/
theorem C7_writeQuery_witness :
    (GTFSQueryAgent.writeQuery ⟨[], 5, none, false⟩ ⟨[], fun _ => .ok []⟩
        (fun _ => .ok "  SELECT 1  ") "list routes").2.2 = 1
    ∧ (GTFSQueryAgent.writeQuery ⟨[], 5, none, false⟩ ⟨[], fun _ => .ok []⟩
        (fun _ => .ok "  SELECT 1  ") "list routes").1.query = some (pyStrip "  SELECT 1  ")
    ∧ (GTFSQueryAgent.writeQuery ⟨[], 5, none, false⟩ ⟨[], fun _ => .ok []⟩
        (fun _ => .ok "  SELECT 1  ") "list routes").1.results =
        some (GTFSQueryAgent.runQuery ⟨[], fun _ => .ok []⟩ (pyStrip "  SELECT 1  ")) := by
  refine ⟨(C7_writeQuery_single_invoke_no_validation ⟨[], 5, none, false⟩
      ⟨[], fun _ => .ok []⟩ (fun _ => .ok "  SELECT 1  ") "list routes").1, ?_, ?_⟩
  · exact ((C7_writeQuery_single_invoke_no_validation ⟨[], 5, none, false⟩
      ⟨[], fun _ => .ok []⟩ (fun _ => .ok "  SELECT 1  ") "list routes").2
      "  SELECT 1  " rfl).1
  · exact ((C7_writeQuery_single_invoke_no_validation ⟨[], 5, none, false⟩
      ⟨[], fun _ => .ok []⟩ (fun _ => .ok "  SELECT 1  ") "list routes").2
      "  SELECT 1  " rfl).2

/-- Every string occurs literally in itself. -/
theorem containsLit_self (t : String) : containsLit t t :=
  ⟨"", "", by simp [String.append_empty, String.empty_append]⟩

/-- A literal occurrence survives prepending. -/
theorem containsLit_appL (u s t : String) (h : containsLit s t) :
    containsLit (u ++ s) t := by
  obtain ⟨a, b, rfl⟩ := h
  exact ⟨u ++ a, b, by simp [String.append_assoc]⟩

/-- A literal occurrence survives appending. -/
theorem containsLit_appR (u s t : String) (h : containsLit s t) :
    containsLit (s ++ u) t := by
  obtain ⟨a, b, rfl⟩ := h
  exact ⟨a, b ++ u, by simp [String.append_assoc]⟩

/-- C8: the Prompt Builder is a pure function (a `def` of its inputs alone),
and both its system and its human message embed the literal schema text and
the literal question text. -/
theorem C8_buildPrompt_embeds_literals (top_k : Nat) (table_info input : String) :
    containsLit (GTFSQueryAgent.buildPrompt top_k table_info input).system table_info
    ∧ containsLit (GTFSQueryAgent.buildPrompt top_k table_info input).system input
    ∧ containsLit (GTFSQueryAgent.buildPrompt top_k table_info input).human table_info
    ∧ containsLit (GTFSQueryAgent.buildPrompt top_k table_info input).human input := by
  simp only [GTFSQueryAgent.buildPrompt, GTFSQueryAgent.sysMsgText, GTFSQueryAgent.humMsgText]
  exact ⟨containsLit_appR _ _ _ (containsLit_appR _ _ _ (containsLit_appR _ _ _
          (containsLit_appL _ _ _ (containsLit_self table_info)))),
        containsLit_appR _ _ _ (containsLit_appL _ _ _ (containsLit_self input)),
        containsLit_appR _ _ _ (containsLit_appR _ _ _
          (containsLit_appL _ _ _ (containsLit_self table_info))),
        containsLit_appL _ _ _ (containsLit_self input)⟩

/-- C9 (spec-modelled): the tool-selection loop of the Dispatcher always yields a
final answer string within the documented iteration bound, and an oracle
that picks the Current-Time tool once and then declares sufficiency
terminates after exactly one tool invocation. -/
theorem C9_dispatch_terminates_bounded
    (tools : ToolName → List (String × String) → String)
    (oracle : List String → LlmDecision) (question : String) :
    (sendToLlm tools oracle question).2 ≤ maxIterations
    ∧ ∀ ans, sendToLlm tools
        (fun ctx => if ctx.length ≤ 1 then LlmDecision.pickTool ToolName.currentTime []
                    else LlmDecision.finish ans) question = (ans, 1) := by
  constructor
  · exact dispatchLoop_steps_le tools oracle maxIterations [question]
  · intro ans
    rfl

/-- C10: for each capability tool, the asynchronous variant returns exactly
the result of the synchronous variant on the same arguments (for the
current-time tool, on the same clock instant). -/
theorem C10_arun_equals_run
    (secrets : List (String × String)) (net : HttpResponse)
    (query origin destination ext : String)
    (lat lon radius limit countrySet language : Option String)
    (optimize avoid distance_unit date_time : Option String)
    (max_solutions : Option Int) (key : Option String)
    (now : DateTime) (dtQuery : Option String) :
    GeocodingTool.arun secrets net query lat lon radius limit countrySet language ext =
      GeocodingTool.run secrets net query lat lon radius limit countrySet language ext
    ∧ TransitRoutingTool.arun secrets net origin destination optimize avoid
        distance_unit date_time max_solutions key =
      TransitRoutingTool.run secrets net origin destination optimize avoid
        distance_unit date_time max_solutions key
    ∧ CurrentDateTime.arun now dtQuery = CurrentDateTime.run now dtQuery :=
  ⟨rfl, rfl, rfl⟩

/-- Counterexample to C1 as stated: on a 200 routing response whose body
lacks `resourceSets`, the extraction inside `RoutesAgent.fetch_response`
fails (second conjunct), the failure is caught, but the returned value is
the all-null record whose error field is absent (third conjunct) — so a
caller checking the error field cannot detect this failure. -/
theorem C1_counterexample :
    RoutesAgent.fetchResponse [("BINGMAPS_KEY", "k")] (.ok ["Dubai Mall", "Palm Jumeirah"])
        { status := 200, text := "oops", json := some (Json.jobj []) }
        (some "time") none (some "km") none (some 1)
      = (.record RoutesAgent.allNullRecord, true)
    ∧ extractRouteRecord (Json.jobj []) = .error ("KeyError: " ++ "resourceSets")
    ∧ (RoutingOutcome.record RoutesAgent.allNullRecord).hasErrorField = false :=
  ⟨rfl, rfl, rfl⟩

/-- C1 (amended): every component-level failure is caught at the component
boundary and returned as a structured value, never as an uncaught
exception; for SQL generation (`write_query`), SQL execution (`run_query`),
the geocoding tool and the transit routing tool the value carries the
failure in its error field with a null result, while
`RoutesAgent.fetch_response` signals an internal failure by returning the
all-null result record without an error field, and the current-time tool
cannot fail. -/
theorem C1_amended_component_failures_caught
    (s : AgentState) (db : DBConn) (question : String)
    (secrets : List (String × String)) (net : HttpResponse)
    (gquery geoQuery ext origin destination : String)
    (lat lon radius limit countrySet language : Option String)
    (optimize avoid distance_unit date_time : Option String)
    (max_solutions : Option Int)
    (now : DateTime) (dtQuery : Option String) :
    (∀ (llm : LlmOracle) (e : String), (∀ p, llm p = .error e) →
      (GTFSQueryAgent.writeQuery s db llm question).1 =
        { query := none, results := none, errors := some e })
    ∧ (∀ e, db.exec gquery = .error e →
        GTFSQueryAgent.runQuery db gquery = .dbError ("SQLite error: " ++ e))
    ∧ (∀ k, lookupStr secrets "TOMTOM_API_KEY" = some k → k ≠ "" → net.status ≠ 200 →
        (GeocodingTool.run secrets net geoQuery lat lon radius limit countrySet language ext).1 =
          .err ("API call failed with status code " ++ toString net.status ++ ": " ++ net.text))
    ∧ (∀ k body e, lookupStr secrets "BINGMAPS_KEY" = some k → k ≠ "" →
        net.status = 200 → net.json = some body → extractRouteRecord body = .error e →
        (TransitRoutingTool.run secrets net origin destination optimize avoid
            distance_unit date_time max_solutions none).1 = .err e)
    ∧ (∀ k body e ws, lookupStr secrets "BINGMAPS_KEY" = some k → k ≠ "" →
        net.status = 200 → net.json = some body → extractRouteRecord body = .error e →
        (RoutesAgent.fetchResponse secrets (.ok ws) net optimize avoid
            distance_unit date_time max_solutions).1 = .record RoutesAgent.allNullRecord
        ∧ (RoutingOutcome.record RoutesAgent.allNullRecord).hasErrorField = false)
    ∧ CurrentDateTime.run now dtQuery = "The current date and time is: " ++ strftimeYmdHms now := by
  refine ⟨?_, ?_, ?_, ?_, ?_, rfl⟩
  · intro llm e h
    simp [GTFSQueryAgent.writeQuery, h]
  · intro e h
    simp [GTFSQueryAgent.runQuery, h]
  · intro k hk hne h200
    simp [GeocodingTool.run, hk, truthyStr, hne, h200]
  · intro k body e hk hne h200 hjson hex
    simp [TransitRoutingTool.run, pyOrStr, hk, truthyStr, hne, h200, hjson, hex]
  · intro k body e ws hk hne h200 hjson hex
    exact ⟨by simp [RoutesAgent.fetchResponse, hk, hne, h200, hjson, hex], rfl⟩

/-- Witness for C1 (amended) at concrete inputs: a raising model client, a
failing sqlite engine, a non-200 geocoding response, and a 200 routing
response whose body lacks every expected field. -/
theorem C1_amended_witness :
    (GTFSQueryAgent.writeQuery ⟨[], 5, none, false⟩ ⟨[], fun _ => .error "no such table: routes"⟩
        (fun _ => .error "APIStatusError") "q").1
      = { query := none, results := none, errors := some "APIStatusError" }
    ∧ GTFSQueryAgent.runQuery ⟨[], fun _ => .error "no such table: routes"⟩ "SELECT x"
      = .dbError ("SQLite error: " ++ "no such table: routes")
    ∧ (GeocodingTool.run [("TOMTOM_API_KEY", "t"), ("BINGMAPS_KEY", "k")]
        ⟨500, "server error", none⟩ "Eiffel Tower" none none none (some "1") none (some "en") "json").1
      = .err ("API call failed with status code " ++ toString (500 : Nat) ++ ": " ++ "server error")
    ∧ (TransitRoutingTool.run [("TOMTOM_API_KEY", "t"), ("BINGMAPS_KEY", "k")]
        ⟨200, "oops", some (Json.jobj [])⟩ "a" "b" (some "time") none (some "km") none (some 1) none).1
      = .err ("KeyError: " ++ "resourceSets")
    ∧ (RoutesAgent.fetchResponse [("TOMTOM_API_KEY", "t"), ("BINGMAPS_KEY", "k")] (.ok ["a", "b"])
        ⟨200, "oops", some (Json.jobj [])⟩ (some "time") none (some "km") none (some 1)).1
      = .record RoutesAgent.allNullRecord := by
  have t1 := C1_amended_component_failures_caught ⟨[], 5, none, false⟩
    ⟨[], fun _ => .error "no such table: routes"⟩ "q"
    [("TOMTOM_API_KEY", "t"), ("BINGMAPS_KEY", "k")] ⟨500, "server error", none⟩
    "SELECT x" "Eiffel Tower" "json" "a" "b" none none none (some "1") none (some "en")
    (some "time") none (some "km") none (some 1) ⟨2026, 10, 12, 12, 0, 0⟩ none
  have t2 := C1_amended_component_failures_caught ⟨[], 5, none, false⟩
    ⟨[], fun _ => .error "no such table: routes"⟩ "q"
    [("TOMTOM_API_KEY", "t"), ("BINGMAPS_KEY", "k")] ⟨200, "oops", some (Json.jobj [])⟩
    "SELECT x" "Eiffel Tower" "json" "a" "b" none none none (some "1") none (some "en")
    (some "time") none (some "km") none (some 1) ⟨2026, 10, 12, 12, 0, 0⟩ none
  exact ⟨t1.1 (fun _ => .error "APIStatusError") "APIStatusError" (fun _ => rfl),
         t1.2.1 "no such table: routes" rfl,
         t1.2.2.1 "t" rfl (by decide) (by decide),
         t2.2.2.2.1 "k" (Json.jobj []) ("KeyError: " ++ "resourceSets") rfl (by decide) rfl rfl rfl,
         (t2.2.2.2.2.1 "k" (Json.jobj []) ("KeyError: " ++ "resourceSets") ["a", "b"]
           rfl (by decide) rfl rfl rfl).1⟩

/-- Counterexample to C2 as stated: on a 200 routing response whose body
lacks `resourceSets`, `TransitRoutingTool._run` returns the
`{"error": ...}` payload, not the documented all-null/empty result
record. -/
theorem C2_counterexample :
    (TransitRoutingTool.run [("BINGMAPS_KEY", "k")]
        { status := 200, text := "oops", json := some (Json.jobj []) }
        "Dubai Mall" "Palm Jumeirah" (some "time") none (some "km") none (some 1) none).1
      = .err ("KeyError: " ++ "resourceSets")
    ∧ RoutingOutcome.err ("KeyError: " ++ "resourceSets")
        ≠ RoutingOutcome.record RoutesAgent.allNullRecord :=
  ⟨rfl, fun h => RoutingOutcome.noConfusion h⟩

/-- C2 (amended): on a routing response missing an expected field, neither
implementation raises: `RoutesAgent.fetch_response` returns the documented
all-null/empty result record, while `TransitRoutingTool._run` returns the
error payload carrying the raised message instead of the all-null
record. -/
theorem C2_amended_malformed_response_outcomes
    (secrets : List (String × String)) (net : HttpResponse)
    (origin destination : String)
    (optimize avoid distance_unit date_time : Option String)
    (max_solutions : Option Int) (ws : List String)
    (k : String) (body : Json) (e : String) :
    lookupStr secrets "BINGMAPS_KEY" = some k → k ≠ "" →
    net.status = 200 → net.json = some body → extractRouteRecord body = .error e →
    RoutesAgent.fetchResponse secrets (.ok ws) net optimize avoid distance_unit
        date_time max_solutions
      = (.record RoutesAgent.allNullRecord, true)
    ∧ TransitRoutingTool.run secrets net origin destination optimize avoid
        distance_unit date_time max_solutions none
      = (.err e, true) := by
  intro hk hne h200 hjson hex
  constructor
  · simp [RoutesAgent.fetchResponse, hk, hne, h200, hjson, hex]
  · simp [TransitRoutingTool.run, pyOrStr, hk, truthyStr, hne, h200, hjson, hex]

/-- Witness for C2 (amended) at a concrete 200 response with an empty JSON
object body. -/
theorem C2_amended_witness :
    RoutesAgent.fetchResponse [("BINGMAPS_KEY", "k")] (.ok ["Dubai Mall", "Palm Jumeirah"])
        ⟨200, "oops", some (Json.jobj [])⟩ (some "time") none (some "km") none (some 1)
      = (.record RoutesAgent.allNullRecord, true)
    ∧ TransitRoutingTool.run [("BINGMAPS_KEY", "k")] ⟨200, "oops", some (Json.jobj [])⟩
        "Dubai Mall" "Palm Jumeirah" (some "time") none (some "km") none (some 1) none
      = (.err ("KeyError: " ++ "resourceSets"), true) :=
  C2_amended_malformed_response_outcomes [("BINGMAPS_KEY", "k")]
    ⟨200, "oops", some (Json.jobj [])⟩ "Dubai Mall" "Palm Jumeirah"
    (some "time") none (some "km") none (some 1) ["Dubai Mall", "Palm Jumeirah"]
    "k" (Json.jobj []) ("KeyError: " ++ "resourceSets")
    rfl (by decide) rfl rfl rfl

/-- Counterexample to C3 as stated: with no `BINGMAPS_KEY` in the secret
store, `RoutesAgent.fetch_response` performs no network call but returns
the all-null result record — not a Configuration error payload describing
the missing key. -/
theorem C3_counterexample :
    RoutesAgent.fetchResponse [] (.ok ["a", "b"]) ⟨200, "body", some Json.null⟩
        (some "time") none (some "km") none (some 1)
      = (.record RoutesAgent.allNullRecord, false)
    ∧ (RoutesAgent.fetchResponse [] (.ok ["a", "b"]) ⟨200, "body", some Json.null⟩
        (some "time") none (some "km") none (some 1)).1.hasErrorField = false :=
  ⟨rfl, rfl⟩

/-- C3 (amended): with the required API key absent, `GeocodingTool._run`
and `TransitRoutingTool._run` return the Configuration error payload
describing the missing key and perform no network call;
`RoutesAgent.fetch_response` also performs no network call but returns the
all-null result record with no error field instead of a Configuration
error. -/
theorem C3_amended_missing_key_no_call
    (secrets : List (String × String)) (net : HttpResponse)
    (geoQuery origin destination ext : String)
    (lat lon radius limit countrySet language : Option String)
    (optimize avoid distance_unit date_time : Option String)
    (max_solutions : Option Int) (extracted : Except String (List String)) :
    (lookupStr secrets "TOMTOM_API_KEY" = none →
      GeocodingTool.run secrets net geoQuery lat lon radius limit countrySet language ext
        = (.err "API key is missing from secrets.toml", false))
    ∧ (lookupStr secrets "BINGMAPS_KEY" = none →
        TransitRoutingTool.run secrets net origin destination optimize avoid
            distance_unit date_time max_solutions none
          = (.err "API key is missing. Provide it in secrets or as an input parameter.", false))
    ∧ (lookupStr secrets "BINGMAPS_KEY" = none →
        RoutesAgent.fetchResponse secrets extracted net optimize avoid
            distance_unit date_time max_solutions
          = (.record RoutesAgent.allNullRecord, false)
        ∧ (RoutingOutcome.record RoutesAgent.allNullRecord).hasErrorField = false) := by
  refine ⟨?_, ?_, ?_⟩
  · intro h
    simp [GeocodingTool.run, h, truthyStr]
  · intro h
    simp [TransitRoutingTool.run, pyOrStr, h, truthyStr]
  · intro h
    exact ⟨by simp [RoutesAgent.fetchResponse, h], rfl⟩

/-- Witness for C3 (amended) with an empty secret store. -/
theorem C3_amended_witness :
    GeocodingTool.run [] ⟨200, "body", some Json.null⟩ "Amsterdam"
        none none none (some "10") none (some "en") "json"
      = (.err "API key is missing from secrets.toml", false)
    ∧ TransitRoutingTool.run [] ⟨200, "body", some Json.null⟩ "a" "b"
        (some "time") none (some "km") none (some 1) none
      = (.err "API key is missing. Provide it in secrets or as an input parameter.", false)
    ∧ RoutesAgent.fetchResponse [] (.ok ["a", "b"]) ⟨200, "body", some Json.null⟩
        (some "time") none (some "km") none (some 1)
      = (.record RoutesAgent.allNullRecord, false) := by
  have t := C3_amended_missing_key_no_call [] ⟨200, "body", some Json.null⟩
    "Amsterdam" "a" "b" "json" none none none (some "10") none (some "en")
    (some "time") none (some "km") none (some 1) (.ok ["a", "b"])
  exact ⟨t.1 rfl, t.2.1 rfl, (t.2.2 rfl).1⟩
